import Mathlib

/-!
# FTP client protocol engine (`ftp/client.go`)

A shallow embedding of the control/data channel engine of the FTP client.

* A Go `string` / `[]byte` is a list of byte values (`Bytes`).
* A Go `int` is an `Int`; where the source computes in 64-bit two's complement
  (`nums[4]<<8 + nums[5]`) the wrap-around is explicit (`wrapInt`).
* The network is an explicit `World`: the bytes the server will deliver on the
  control connection, fault scripts for the I/O primitives, and a `trace` of the
  I/O calls performed so far.
* A Go `error` result is `Option GoError` (`none` is `nil`); a `(value, error)`
  result is `Except GoError value`.
-/

namespace ftp

/-! ## Byte strings and the Go library functions the client calls -/

/-- A Go string: its sequence of bytes. -/
abbrev Bytes := List Nat

/-- The bytes of an ASCII literal. -/
def ascii (s : String) : Bytes := s.toList.map Char.toNat

/-- The byte is one of `0`..`9`. -/
def isDigit (b : Nat) : Bool := 48 ≤ b && b ≤ 57

/-- The value of a string of decimal digits. -/
def decimalValue (s : Bytes) : Nat := s.foldl (fun n b => n * 10 + (b - 48)) 0

/-- The two error kinds of `strconv.NumError`. -/
inductive NumError where
  | ErrSyntax
  | ErrRange
deriving DecidableEq, Repr

/-- Go `strconv.Atoi` for a 64-bit `int`: an optional sign followed by one or more
decimal digits. A malformed string gives `(0, ErrSyntax)`; a value outside the
`int` range gives the nearest bound together with `ErrRange`. -/
def Atoi (s : Bytes) : Int × Option NumError :=
  let neg : Bool := s.head? = some 45
  let body : Bytes := if s.head? = some 45 ∨ s.head? = some 43 then s.tail else s
  if body = [] then (0, some NumError.ErrSyntax)
  else if body.all isDigit = false then (0, some NumError.ErrSyntax)
  else
    let un : Nat := decimalValue body
    if neg = false ∧ 2 ^ 63 ≤ un then (2 ^ 63 - 1, some NumError.ErrRange)
    else if neg = true ∧ 2 ^ 63 < un then (-(2 ^ 63), some NumError.ErrRange)
    else (if neg then -(un : Int) else (un : Int), none)

/-- The decimal digits of `n`, most significant first (`fuel` bounds the number of digits). -/
def natDigitsAux : Nat → Nat → Bytes → Bytes
  | 0, _, acc => acc
  | fuel + 1, n, acc =>
    if n / 10 = 0 then (48 + n % 10) :: acc
    else natDigitsAux fuel (n / 10) ((48 + n % 10) :: acc)

/-- The decimal representation of a natural number. -/
def natDigits (n : Nat) : Bytes := natDigitsAux (n + 1) n []

/-- Go `strconv.Itoa` (also the `%d` verb of `fmt.Sprintf`). -/
def Itoa (i : Int) : Bytes :=
  if i < 0 then 45 :: natDigits i.natAbs else natDigits i.natAbs

/-- Go `strings.TrimSuffix`. -/
def TrimSuffix (s suffix : Bytes) : Bytes :=
  if suffix.isSuffixOf s then s.take (s.length - suffix.length) else s

/-- The ASCII white-space bytes: tab, LF, VT, FF, CR and space. -/
def isAsciiSpace (b : Nat) : Bool :=
  b = 9 || b = 10 || b = 11 || b = 12 || b = 13 || b = 32

/-- Removes every leading white-space rune (`unicode.IsSpace`) of a UTF-8 byte string:
the ASCII white space, U+0085, U+00A0, U+1680, U+2000..U+200A, U+2028, U+2029,
U+202F, U+205F and U+3000. -/
def trimLeftSpace : Bytes → Bytes
  | [] => []
  | b :: rest =>
    if isAsciiSpace b then trimLeftSpace rest
    else
      match rest with
      | c :: rest2 =>
        if b = 0xC2 ∧ (c = 0x85 ∨ c = 0xA0) then trimLeftSpace rest2
        else
          match rest2 with
          | d :: rest3 =>
            if (b = 0xE1 ∧ c = 0x9A ∧ d = 0x80)
                ∨ (b = 0xE2 ∧ c = 0x80 ∧ ((0x80 ≤ d ∧ d ≤ 0x8A) ∨ d = 0xA8 ∨ d = 0xA9 ∨ d = 0xAF))
                ∨ (b = 0xE2 ∧ c = 0x81 ∧ d = 0x9F)
                ∨ (b = 0xE3 ∧ c = 0x80 ∧ d = 0x80)
            then trimLeftSpace rest3
            else b :: rest
          | [] => b :: rest
      | [] => b :: rest

/-- Removes every trailing white-space rune: the same runes as `trimLeftSpace`, read from
the end of the string (`s` is given reversed). -/
def trimLeftSpaceRev : Bytes → Bytes
  | [] => []
  | d :: rest =>
    if isAsciiSpace d then trimLeftSpaceRev rest
    else
      match rest with
      | c :: rest2 =>
        if c = 0xC2 ∧ (d = 0x85 ∨ d = 0xA0) then trimLeftSpaceRev rest2
        else
          match rest2 with
          | b :: rest3 =>
            if (b = 0xE1 ∧ c = 0x9A ∧ d = 0x80)
                ∨ (b = 0xE2 ∧ c = 0x80 ∧ ((0x80 ≤ d ∧ d ≤ 0x8A) ∨ d = 0xA8 ∨ d = 0xA9 ∨ d = 0xAF))
                ∨ (b = 0xE2 ∧ c = 0x81 ∧ d = 0x9F)
                ∨ (b = 0xE3 ∧ c = 0x80 ∧ d = 0x80)
            then trimLeftSpaceRev rest3
            else d :: rest
          | [] => d :: rest
      | [] => d :: rest

/-- Go `strings.TrimSpace`: the string without its leading and trailing white space. -/
def TrimSpace (s : Bytes) : Bytes :=
  (trimLeftSpaceRev (trimLeftSpace s).reverse).reverse

/-- Go `net.JoinHostPort`: `host:port`, the host in brackets when it contains a colon
or a percent sign. -/
def JoinHostPort (host port : Bytes) : Bytes :=
  if host.contains 58 ∨ host.contains 37 then [91] ++ host ++ [93, 58] ++ port
  else host ++ [58] ++ port

/-- A Go `int` result reduced to 64-bit two's complement. -/
def wrapInt (x : Int) : Int := (x + 2 ^ 63) % 2 ^ 64 - 2 ^ 63

/-! ## Errors, replies and the world -/

/-- An argument of a `fmt.Errorf` call. -/
inductive Arg where
  | int (i : Int)
  | str (s : Bytes)
deriving DecidableEq, Repr

/-- A Go `error` value: an I/O failure of a named primitive, a `fmt.Errorf` call (its
format string and arguments), or a `fmt.Errorf` call wrapping another error with `%w`. -/
inductive GoError where
  | ioFailure (op : String)
  | errorf (format : String) (args : List Arg)
  | wrapf (format : String) (inner : GoError)
deriving DecidableEq, Repr

deriving instance DecidableEq for Except

/-- Response holds an FTP server response. -/
structure Response where
  Code : Int
  Message : Bytes
deriving DecidableEq, Repr

/-- One I/O call of the client. -/
inductive Event where
  | dialControl (addr : Bytes)
  | ctrlWrite (data : Bytes)
  | ctrlRead (line : Bytes)
  | ctrlReadFailed
  | ctrlClose
  | dialData (addr : Bytes)
  | dataRead (data : Bytes)
  | dataWrite (data : Bytes)
  | dataClose
deriving DecidableEq, Repr

/-- The sequence of I/O calls performed so far. -/
abbrev Trace := List Event

/-- The environment of one client session. -/
structure World where
  /-- bytes the server delivers on the control connection that are not read yet -/
  ctrlIn : Bytes
  /-- outcomes of the coming `Write` calls on the control connection (`true` fails);
  calls beyond the script succeed -/
  writeFaults : List Bool
  /-- `net.Dial` of the control connection fails -/
  connectFault : Bool
  /-- `net.Dial` of the data connection fails -/
  dialFault : Bool
  /-- bytes the peer sends on the data connection before it closes it -/
  dataIn : Bytes
  /-- reading the data connection ends in an error instead of end-of-file -/
  dataReadFault : Bool
  /-- writing the data connection fails -/
  dataWriteFault : Bool
  /-- a data connection is open -/
  dataOpen : Bool
  /-- lines printed on standard output -/
  stdout : List Bytes
  /-- the I/O calls performed so far -/
  trace : Trace
deriving DecidableEq, Repr

/-- Client implements a minimal FTP client over the control and data channels; the
connection and its buffered reader live in the `World`. -/
structure Client where
  verbose : Bool
deriving DecidableEq, Repr

/-- Go `bufio.Reader.ReadString(10)` on a byte sequence: the bytes up to and including
the first LF and the bytes after it; `none` when there is no LF before end-of-file. -/
def splitLine : Bytes → Option (Bytes × Bytes)
  | [] => none
  | b :: rest =>
    if b = 10 then some ([10], rest)
    else
      match splitLine rest with
      | some (line, rest2) => some (b :: line, rest2)
      | none => none

/-- The call `c.reader.ReadString(10)` on the control connection. -/
def ReadString (w : World) : Option Bytes × World :=
  match splitLine w.ctrlIn with
  | some (line, rest) =>
    (some line, { w with ctrlIn := rest, trace := w.trace ++ [Event.ctrlRead line] })
  | none => (none, { w with ctrlIn := [], trace := w.trace ++ [Event.ctrlReadFailed] })

/-- The call `fmt.Println(line)` when the client is verbose. -/
def echo (c : Client) (line : Bytes) (w : World) : World :=
  if c.verbose then { w with stdout := w.stdout ++ [line] } else w

/-- Sends a single command (appends CR LF); `cmd` is the formatted command. -/
def Client.send (c : Client) (cmd : Bytes) (w : World) : Option GoError × World :=
  let w1 := echo c (ascii "> " ++ cmd) w
  let w2 := { w1 with writeFaults := w1.writeFaults.tail,
                      trace := w1.trace ++ [Event.ctrlWrite (cmd ++ [13, 10])] }
  if w1.writeFaults.head? = some true then (some (GoError.ioFailure "write"), w2)
  else (none, w2)

/-- The part of `readResponse` after the line is read and its terminator stripped: the
first three bytes are the code, the bytes after the fourth are the message. -/
def parseReply (line : Bytes) : Except GoError Response :=
  if line.length < 4 then Except.error (GoError.errorf "invalid response: %q" [Arg.str line])
  else
    match Atoi (line.take 3) with
    | (_, some _) =>
      Except.error (GoError.errorf "invalid response code: %q" [Arg.str (line.take 3)])
    | (code, none) =>
      let msg := if line.length > 4 then TrimSpace (line.drop 4) else []
      Except.ok { Code := code, Message := msg }

/-- Reads one FTP response line (code + message). -/
def Client.readResponse (c : Client) (w : World) : Except GoError Response × World :=
  match ReadString w with
  | (none, w1) => (Except.error (GoError.ioFailure "read"), w1)
  | (some line0, w1) =>
    let line := TrimSuffix (TrimSuffix line0 [10]) [13]
    (parseReply line, echo c (ascii "< " ++ line) w1)

/-- The continuation loop of `readResponseMultiline`: reads lines until one consists of
the first line's code, a space and the closing message. Every round consumes a line, so
`fuel` rounds with `fuel` above the number of unread bytes are never used up. -/
def multilineLoop (c : Client) (code : Int) : Nat → World → Except GoError Response × World
  | 0, w => (Except.error (GoError.ioFailure "read"), w)
  | fuel + 1, w =>
    match ReadString w with
    | (none, w1) => (Except.error (GoError.ioFailure "read"), w1)
    | (some line0, w1) =>
      let line := TrimSuffix (TrimSuffix line0 [10]) [13]
      let w2 := echo c (ascii "< " ++ line) w1
      if line.length ≥ 4 ∧ line.get? 3 = some 32 ∧ line.take 3 = Itoa code then
        let msg := if line.length > 4 then TrimSpace (line.drop 4) else []
        (Except.ok { Code := code, Message := msg }, w2)
      else multilineLoop c code fuel w2

/-- Reads a response that may have multiple lines. -/
def Client.readResponseMultiline (c : Client) (w : World) : Except GoError Response × World :=
  match c.readResponse w with
  | (Except.error e, w1) => (Except.error e, w1)
  | (Except.ok first, w1) =>
    if first.Code ≥ 100 ∧ first.Code < 400 ∧ first.Message.length > 0
        ∧ first.Message.head? = some 45 then
      multilineLoop c first.Code (w1.ctrlIn.length + 1) w1
    else (Except.ok first, w1)

/-- NewClient connects to the FTP server and reads the hello message. -/
def NewClient (host : Bytes) (port : Int) (verbose : Bool) (w : World) :
    Except GoError Client × World :=
  let addr := JoinHostPort host (Itoa port)
  let w1 := { w with trace := w.trace ++ [Event.dialControl addr] }
  if w.connectFault then (Except.error (GoError.wrapf "connect: %w" (GoError.ioFailure "dial")), w1)
  else
    let c : Client := { verbose := verbose }
    match c.readResponse w1 with
    | (Except.error e, w2) =>
      (Except.error (GoError.wrapf "read hello: %w" e),
        { w2 with trace := w2.trace ++ [Event.ctrlClose] })
    | (Except.ok _, w2) => (Except.ok c, w2)

/-- Login sends USER and optionally PASS. -/
def Client.Login (c : Client) (user password : Bytes) (w : World) : Option GoError × World :=
  match c.send (ascii "USER " ++ user) w with
  | (some e, w1) => (some e, w1)
  | (none, w1) =>
    match c.readResponse w1 with
    | (Except.error e, w2) => (some e, w2)
    | (Except.ok resp, w2) =>
      if resp.Code = 230 then (none, w2)
      else
        let check := fun (r : Response) (w3 : World) =>
          if r.Code ≠ 230 then
            (some (GoError.errorf "login failed: %d %s" [Arg.int r.Code, Arg.str r.Message]), w3)
          else (none, w3)
        if resp.Code = 331 then
          match c.send (ascii "PASS " ++ password) w2 with
          | (some e, w3) => (some e, w3)
          | (none, w3) =>
            match c.readResponse w3 with
            | (Except.error e, w4) => (some e, w4)
            | (Except.ok resp2, w4) => check resp2 w4
        else check resp w2

/-- The loop of `SetTransferMode` over the directives still to send. -/
def setTransferModeLoop (c : Client) : List Bytes → World → Option GoError × World
  | [], w => (none, w)
  | cmd :: rest, w =>
    match c.send cmd w with
    | (some e, w1) => (some e, w1)
    | (none, w1) =>
      match c.readResponse w1 with
      | (Except.error e, w2) => (some e, w2)
      | (Except.ok resp, w2) =>
        if resp.Code ≠ 200 ∧ resp.Code ≠ 250 then
          (some (GoError.errorf "%s: %d %s" [Arg.str cmd, Arg.int resp.Code, Arg.str resp.Message]),
            w2)
        else setTransferModeLoop c rest w2

/-- SetTransferMode sends TYPE I, MODE S, STRU F for binary transfer. -/
def Client.SetTransferMode (c : Client) (w : World) : Option GoError × World :=
  setTransferModeLoop c [ascii "TYPE I", ascii "MODE S", ascii "STRU F"] w

/-! ## The passive-mode reply pattern -/

/-- The byte `b` at the front of the text. -/
def expectByte (b : Nat) : Bytes → Option Bytes
  | [] => none
  | c :: rest => if c = b then some rest else none

/-- The group `(\d+)` at the front of the text: its longest non-empty run of digits and
what follows it. (A shorter run is followed by a digit, where the pattern wants a
comma or a bracket, so the greedy run is the only one that can match.) -/
def digitGroup (s : Bytes) : Option (Bytes × Bytes) :=
  if s.takeWhile isDigit = [] then none else some (s.takeWhile isDigit, s.dropWhile isDigit)

/-- The byte `b` followed by a group `(\d+)`. -/
def groupAfter (b : Nat) (s : Bytes) : Option (Bytes × Bytes) :=
  match expectByte b s with
  | none => none
  | some r => digitGroup r

/-- The pattern `\((\d+),(\d+),(\d+),(\d+),(\d+),(\d+)\)` matched at the front of the
text: the whole match followed by its six groups. -/
def pasvMatchAt (s : Bytes) : Option (List Bytes) :=
  match groupAfter 40 s with
  | none => none
  | some (m1, r1) =>
    match groupAfter 44 r1 with
    | none => none
    | some (m2, r2) =>
      match groupAfter 44 r2 with
      | none => none
      | some (m3, r3) =>
        match groupAfter 44 r3 with
        | none => none
        | some (m4, r4) =>
          match groupAfter 44 r4 with
          | none => none
          | some (m5, r5) =>
            match groupAfter 44 r5 with
            | none => none
            | some (m6, r6) =>
              match expectByte 41 r6 with
              | none => none
              | some _ =>
                some [[40] ++ m1 ++ [44] ++ m2 ++ [44] ++ m3 ++ [44] ++ m4 ++ [44] ++ m5
                    ++ [44] ++ m6 ++ [41], m1, m2, m3, m4, m5, m6]

/-- The call `pasvRE.FindStringSubmatch`: the leftmost match of the pattern. -/
def pasvFind : Bytes → Option (List Bytes)
  | [] => none
  | b :: rest =>
    match pasvMatchAt (b :: rest) with
    | some m => some m
    | none => pasvFind rest

/-- The dotted host `fmt.Sprintf("%d.%d.%d.%d", n0, n1, n2, n3)`. -/
def dottedHost (n0 n1 n2 n3 : Int) : Bytes :=
  Itoa n0 ++ [46] ++ Itoa n1 ++ [46] ++ Itoa n2 ++ [46] ++ Itoa n3

/-- The call `dataConn.Close()`. -/
def closeData (w : World) : World :=
  { w with dataOpen := false, trace := w.trace ++ [Event.dataClose] }

/-- Sends PASV, parses the response, and opens a TCP connection to the data port. -/
def Client.openDataChannel (c : Client) (w : World) : Except GoError Unit × World :=
  match c.send (ascii "PASV") w with
  | (some e, w1) => (Except.error e, w1)
  | (none, w1) =>
    match c.readResponse w1 with
    | (Except.error e, w2) => (Except.error e, w2)
    | (Except.ok resp, w2) =>
      if resp.Code ≠ 227 then
        (Except.error
          (GoError.errorf "PASV failed: %d %s" [Arg.int resp.Code, Arg.str resp.Message]), w2)
      else
        match pasvFind resp.Message with
        | none =>
          (Except.error
            (GoError.errorf "could not parse PASV response: %s" [Arg.str resp.Message]), w2)
        | some ms =>
          let nums := fun (i : Nat) => (Atoi (ms.getD (i + 1) [])).1
          let host := dottedHost (nums 0) (nums 1) (nums 2) (nums 3)
          let port := wrapInt (wrapInt (nums 4 * 2 ^ 8) + nums 5)
          let addr := JoinHostPort host (Itoa port)
          let w3 := { w2 with trace := w2.trace ++ [Event.dialData addr] }
          if w2.dialFault then
            (Except.error (GoError.wrapf "connect data channel: %w" (GoError.ioFailure "dial")), w3)
          else (Except.ok (), { w3 with dataOpen := true })

/-- The call `io.ReadAll(dataConn)`: every byte up to the end of the data stream. -/
def readAllData (w : World) : Except GoError Bytes × World :=
  let w1 := { w with dataIn := [], trace := w.trace ++ [Event.dataRead w.dataIn] }
  if w.dataReadFault then (Except.error (GoError.ioFailure "read data"), w1)
  else (Except.ok w.dataIn, w1)

/-- A local destination `io.Writer`: the bytes written to it and whether its writes fail. -/
structure Sink where
  written : Bytes
  fault : Bool
deriving DecidableEq, Repr

/-- A local source `io.Reader`: the bytes it yields and whether it ends in an error
instead of end-of-file. -/
structure Source where
  data : Bytes
  fault : Bool
deriving DecidableEq, Repr

/-- The call `io.Copy(w, dataConn)`: every byte of the data stream goes to the sink. -/
def copyFromData (dst : Sink) (w : World) : Option GoError × Sink × World :=
  let w1 := { w with dataIn := [], trace := w.trace ++ [Event.dataRead w.dataIn] }
  if w.dataIn ≠ [] ∧ dst.fault then (some (GoError.ioFailure "write local"), dst, w1)
  else if w.dataReadFault then
    (some (GoError.ioFailure "read data"), { dst with written := dst.written ++ w.dataIn }, w1)
  else (none, { dst with written := dst.written ++ w.dataIn }, w1)

/-- The call `io.Copy(dataConn, r)`: every byte of the source goes to the data connection. -/
def copyToData (src : Source) (w : World) : Option GoError × World :=
  if src.data ≠ [] ∧ w.dataWriteFault then (some (GoError.ioFailure "write data"), w)
  else
    let w1 := { w with trace := w.trace ++ [Event.dataWrite src.data] }
    if src.fault then (some (GoError.ioFailure "read local"), w1) else (none, w1)

/-- Delete removes a file (DELE). -/
def Client.Delete (c : Client) (path : Bytes) (w : World) : Option GoError × World :=
  match c.send (ascii "DELE " ++ path) w with
  | (some e, w1) => (some e, w1)
  | (none, w1) =>
    match c.readResponse w1 with
    | (Except.error e, w2) => (some e, w2)
    | (Except.ok resp, w2) =>
      if resp.Code ≠ 250 then
        (some (GoError.errorf "DELE: %d %s" [Arg.int resp.Code, Arg.str resp.Message]), w2)
      else (none, w2)

/-- RemoveDir removes a directory (RMD). -/
def Client.RemoveDir (c : Client) (path : Bytes) (w : World) : Option GoError × World :=
  match c.send (ascii "RMD " ++ path) w with
  | (some e, w1) => (some e, w1)
  | (none, w1) =>
    match c.readResponse w1 with
    | (Except.error e, w2) => (some e, w2)
    | (Except.ok resp, w2) =>
      if resp.Code ≠ 250 then
        (some (GoError.errorf "RMD: %d %s" [Arg.int resp.Code, Arg.str resp.Message]), w2)
      else (none, w2)

/-- MakeDir creates a directory (MKD). -/
def Client.MakeDir (c : Client) (path : Bytes) (w : World) : Option GoError × World :=
  match c.send (ascii "MKD " ++ path) w with
  | (some e, w1) => (some e, w1)
  | (none, w1) =>
    match c.readResponse w1 with
    | (Except.error e, w2) => (some e, w2)
    | (Except.ok resp, w2) =>
      if resp.Code ≠ 257 ∧ resp.Code ≠ 250 then
        (some (GoError.errorf "MKD: %d %s" [Arg.int resp.Code, Arg.str resp.Message]), w2)
      else (none, w2)

/-- The body of `Retr` after the data channel is open (its close is deferred). -/
def retrBody (c : Client) (path : Bytes) (dst : Sink) (w : World) :
    Option GoError × Sink × World :=
  match c.send (ascii "RETR " ++ path) w with
  | (some e, w1) => (some e, dst, w1)
  | (none, w1) =>
    match c.readResponse w1 with
    | (Except.error e, w2) => (some e, dst, w2)
    | (Except.ok resp, w2) =>
      if resp.Code ≠ 150 ∧ resp.Code ≠ 125 then
        (some (GoError.errorf "RETR: %d %s" [Arg.int resp.Code, Arg.str resp.Message]), dst, w2)
      else
        match copyFromData dst w2 with
        | (some e, dst1, w3) => (some e, dst1, w3)
        | (none, dst1, w3) =>
          match c.readResponse w3 with
          | (Except.error e, w4) => (some e, dst1, w4)
          | (Except.ok resp2, w4) =>
            if resp2.Code ≠ 226 ∧ resp2.Code ≠ 250 then
              (some (GoError.errorf "RETR completion: %d %s"
                [Arg.int resp2.Code, Arg.str resp2.Message]), dst1, w4)
            else (none, dst1, w4)

/-- Retr downloads the file at path and writes it to the sink. -/
def Client.Retr (c : Client) (path : Bytes) (dst : Sink) (w : World) :
    Option GoError × Sink × World :=
  match c.openDataChannel w with
  | (Except.error e, w1) => (some e, dst, w1)
  | (Except.ok _, w1) =>
    match retrBody c path dst w1 with
    | (r, dst1, w2) => (r, dst1, closeData w2)

/-- The body of `Stor` after the data channel is open (its second close is deferred). -/
def storBody (c : Client) (path : Bytes) (src : Source) (w : World) : Option GoError × World :=
  match c.send (ascii "STOR " ++ path) w with
  | (some e, w1) => (some e, w1)
  | (none, w1) =>
    match c.readResponse w1 with
    | (Except.error e, w2) => (some e, w2)
    | (Except.ok resp, w2) =>
      if resp.Code ≠ 150 ∧ resp.Code ≠ 125 then
        (some (GoError.errorf "STOR: %d %s" [Arg.int resp.Code, Arg.str resp.Message]), w2)
      else
        match copyToData src w2 with
        | (some e, w3) => (some e, w3)
        | (none, w3) =>
          match c.readResponse (closeData w3) with
          | (Except.error e, w4) => (some e, w4)
          | (Except.ok resp2, w4) =>
            if resp2.Code ≠ 226 ∧ resp2.Code ≠ 250 then
              (some (GoError.errorf "STOR completion: %d %s"
                [Arg.int resp2.Code, Arg.str resp2.Message]), w4)
            else (none, w4)

/-- Stor uploads the file from the source to the given path on the server. -/
def Client.Stor (c : Client) (path : Bytes) (src : Source) (w : World) : Option GoError × World :=
  match c.openDataChannel w with
  | (Except.error e, w1) => (some e, w1)
  | (Except.ok _, w1) =>
    match storBody c path src w1 with
    | (r, w2) => (r, closeData w2)

/-- Quit sends QUIT and closes the connection. -/
def Client.Quit (c : Client) (w : World) : Option GoError × World :=
  let w1 := (c.send (ascii "QUIT") w).2
  (none, { w1 with trace := w1.trace ++ [Event.ctrlClose] })

/-- The body of `List` after the data channel is open (its close is deferred). -/
def listBody (c : Client) (path : Bytes) (w : World) : Except GoError Bytes × World :=
  match c.send (ascii "LIST " ++ path) w with
  | (some e, w1) => (Except.error e, w1)
  | (none, w1) =>
    match c.readResponse w1 with
    | (Except.error e, w2) => (Except.error e, w2)
    | (Except.ok resp, w2) =>
      if resp.Code ≠ 150 ∧ resp.Code ≠ 125 then
        (Except.error (GoError.errorf "LIST: %d %s" [Arg.int resp.Code, Arg.str resp.Message]), w2)
      else
        match readAllData w2 with
        | (Except.error e, w3) => (Except.error e, w3)
        | (Except.ok listing, w3) =>
          match c.readResponse w3 with
          | (Except.error e, w4) => (Except.error e, w4)
          | (Except.ok resp2, w4) =>
            if resp2.Code ≠ 226 ∧ resp2.Code ≠ 250 then
              (Except.error (GoError.errorf "LIST completion: %d %s"
                [Arg.int resp2.Code, Arg.str resp2.Message]), w4)
            else (Except.ok listing, w4)

/-- List performs LIST path and returns the listing bytes. -/
def Client.List (c : Client) (path : Bytes) (w : World) : Except GoError Bytes × World :=
  match c.openDataChannel w with
  | (Except.error e, w1) => (Except.error e, w1)
  | (Except.ok _, w1) =>
    match listBody c path w1 with
    | (r, w2) => (r, closeData w2)

/-- The command lines written on the control connection, in order. -/
def sentCommands : Trace → List Bytes
  | [] => []
  | Event.ctrlWrite d :: t => d :: sentCommands t
  | _ :: t => sentCommands t

/-- A world in which the server delivers `input` on the control connection and no
I/O call fails. -/
def World.serving (input : Bytes) : World :=
  { ctrlIn := input, writeFaults := [], connectFault := false, dialFault := false,
    dataIn := [], dataReadFault := false, dataWriteFault := false, dataOpen := false,
    stdout := [], trace := [] }

/-- The line terminator `term` that ends a line of content `body`: CR LF, or a bare LF
after a content that does not itself end in CR. -/
def Terminates (body term : Bytes) : Prop :=
  term = [13, 10] ∨ (term = [10] ∧ body.getLast? ≠ some 13)

instance (body term : Bytes) : Decidable (Terminates body term) := by
  unfold Terminates; infer_instance

/-! ## Predicates on replies and a sample world -/

/-- The reply code is one `SetTransferMode` accepts. -/
def modeAccepted (r : Response) : Prop := r.Code = 200 ∨ r.Code = 250

instance (r : Response) : Decidable (modeAccepted r) := by
  unfold modeAccepted; infer_instance

/-- The preliminary reply code opens the data phase. -/
def preliminaryOk (r : Response) : Prop := r.Code = 150 ∨ r.Code = 125

instance (r : Response) : Decidable (preliminaryOk r) := by
  unfold preliminaryOk; infer_instance

/-- The completion reply code confirms the transfer. -/
def completionOk (r : Response) : Prop := r.Code = 226 ∨ r.Code = 250

instance (r : Response) : Decidable (completionOk r) := by
  unfold completionOk; infer_instance

/-- A world in which the server answers PASV, accepts the transfer and confirms it, and
the data peer sends one line. -/
def transferWorld : World :=
  { World.serving
      (ascii "227 Entering Passive Mode (127,0,0,1,200,10).\r\n150 Opening\r\n226 Done\r\n") with
    dataIn := ascii "a.txt\r\n" }

/-- A non-empty string of decimal digits. -/
def isNumber (d : Bytes) : Prop := d ≠ [] ∧ ∀ b ∈ d, isDigit b = true

instance (d : Bytes) : Decidable (isNumber d) := by
  unfold isNumber; infer_instance

/-- The text `(d1,d2,d3,d4,d5,d6)`. -/
def pasvGroup (d1 d2 d3 d4 d5 d6 : Bytes) : Bytes :=
  [40] ++ d1 ++ [44] ++ d2 ++ [44] ++ d3 ++ [44] ++ d4 ++ [44] ++ d5 ++ [44] ++ d6 ++ [41]

/-! ## Lemmas on the line reader -/

theorem splitLine_append (body rest : Bytes) (h : 10 ∉ body) :
    splitLine (body ++ 10 :: rest) = some (body ++ [10], rest) := by
  induction body with
  | nil => simp [splitLine]
  | cons b t ih =>
    have hb : b ≠ 10 := fun e => h (by simp [e])
    have ht : 10 ∉ t := fun e => h (by simp [e])
    simp [splitLine, hb, ih ht]

theorem TrimSuffix_append (s t : Bytes) : TrimSuffix (s ++ t) t = s := by
  unfold TrimSuffix
  have h : t <:+ s ++ t := List.suffix_append s t
  simp [h]

theorem TrimSuffix_of_not_suffix (s t : Bytes) (h : ¬ t <:+ s) : TrimSuffix s t = s := by
  unfold TrimSuffix
  simp [h]

theorem strip_terminator (body term : Bytes) (h : Terminates body term) :
    TrimSuffix (TrimSuffix (body ++ term) [10]) [13] = body := by
  rcases h with h | ⟨h, hl⟩
  · subst h
    have e : body ++ [13, 10] = (body ++ [13]) ++ [10] := by simp
    rw [e, TrimSuffix_append, TrimSuffix_append]
  · subst h
    rw [TrimSuffix_append]
    apply TrimSuffix_of_not_suffix
    intro hs
    obtain ⟨t, ht⟩ := hs
    apply hl
    rw [← ht]
    simp

theorem not_mem_of_terminates_crlf (body : Bytes) (h : 10 ∉ body) : 10 ∉ body ++ [13] := by
  simp [h]

/-- Reading the line `body ++ term`: the reply is `parseReply body`, and the rest of the
stream stays unread. -/
theorem readResponse_line (c : Client) (w : World) (body term rest : Bytes)
    (h10 : 10 ∉ body) (hterm : Terminates body term) (hin : w.ctrlIn = body ++ term ++ rest) :
    c.readResponse w = (parseReply body,
      echo c (ascii "< " ++ body)
        { w with ctrlIn := rest, trace := w.trace ++ [Event.ctrlRead (body ++ term)] }) := by
  have hs : splitLine w.ctrlIn = some (body ++ term, rest) := by
    rw [hin]
    rcases hterm with h | ⟨h, _⟩
    · subst h
      have e : body ++ [13, 10] ++ rest = (body ++ [13]) ++ 10 :: rest := by simp
      rw [e, splitLine_append _ _ (not_mem_of_terminates_crlf body h10)]
      simp
    · subst h
      have e : body ++ [10] ++ rest = body ++ 10 :: rest := by simp
      rw [e, splitLine_append _ _ h10]
  simp only [Client.readResponse, ReadString, hs, strip_terminator body term hterm]

theorem Atoi_three_digits (d1 d2 d3 : Nat) (h1 : isDigit d1 = true) (h2 : isDigit d2 = true)
    (h3 : isDigit d3 = true) :
    Atoi [d1, d2, d3] = ((((d1 - 48) * 100 + (d2 - 48) * 10 + (d3 - 48) : Nat) : Int), none) := by
  simp only [isDigit, Bool.and_eq_true, decide_eq_true_eq] at h1 h2 h3
  have e1 : d1 ≠ 45 := by omega
  have e2 : d1 ≠ 43 := by omega
  have hv : decimalValue [d1, d2, d3] = (d1 - 48) * 100 + (d2 - 48) * 10 + (d3 - 48) := by
    simp [decimalValue]; omega
  have hlt : (d1 - 48) * 100 + (d2 - 48) * 10 + (d3 - 48) < 9223372036854775808 := by omega
  simp [Atoi, e1, e2, isDigit, h1, h2, h3, hv, hlt]

/-- What `Atoi` accepts among the strings of three bytes: three digits, or a sign
followed by two digits. -/
theorem Atoi_three_ok (a b c : Nat) (v : Int) (h : Atoi [a, b, c] = (v, none)) :
    (isDigit a = true ∧ isDigit b = true ∧ isDigit c = true
        ∧ v = (((a - 48) * 100 + (b - 48) * 10 + (c - 48) : Nat) : Int))
      ∨ (a = 43 ∧ isDigit b = true ∧ isDigit c = true
        ∧ v = (((b - 48) * 10 + (c - 48) : Nat) : Int))
      ∨ (a = 45 ∧ isDigit b = true ∧ isDigit c = true
        ∧ v = -(((b - 48) * 10 + (c - 48) : Nat) : Int)) := by
  by_cases h45 : a = 45
  · subst h45
    right; right
    cases hb : isDigit b <;> cases hc : isDigit c <;>
      simp [Atoi, hb, hc, decimalValue] at h
    by_cases hlt : 9223372036854775808 < (b - 48) * 10 + (c - 48)
    · simp [hlt] at h
    · simp [hlt] at h
      simp [← h]
  · by_cases h43 : a = 43
    · subst h43
      right; left
      cases hb : isDigit b <;> cases hc : isDigit c <;>
        simp [Atoi, hb, hc, decimalValue] at h
      by_cases hlt : 9223372036854775808 ≤ (b - 48) * 10 + (c - 48)
      · simp [hlt] at h
      · simp [hlt] at h
        simp [← h]
    · left
      cases ha : isDigit a <;> cases hb : isDigit b <;> cases hc : isDigit c <;>
        simp [Atoi, h45, h43, ha, hb, hc, decimalValue] at h
      by_cases hlt : 9223372036854775808 ≤ ((a - 48) * 10 + (b - 48)) * 10 + (c - 48)
      · simp [hlt] at h
      · simp [hlt] at h
        refine ⟨rfl, rfl, rfl, ?_⟩
        rw [← h]
        push_cast
        ring

theorem readResponse_ok_parse (c : Client) (w w2 : World) (r : Response)
    (h : c.readResponse w = (Except.ok r, w2)) :
    ∃ line : Bytes, parseReply line = Except.ok r := by
  unfold Client.readResponse at h
  split at h
  · simp at h
  · simp only [Prod.mk.injEq] at h
    exact ⟨_, h.1⟩

theorem parseReply_ok (line : Bytes) (r : Response) (h : parseReply line = Except.ok r) :
    4 ≤ line.length ∧ Atoi (line.take 3) = (r.Code, none) := by
  unfold parseReply at h
  split at h
  · simp at h
  · split at h
    · simp at h
    · rename_i hlen _ code heq
      simp only [Except.ok.injEq] at h
      refine ⟨by omega, ?_⟩
      rw [heq, ← h]

/-! ## The reply reader -/

/-- C1: a line made of three decimal digits, one further byte and a text, ended by CR LF
or LF, is read as the reply whose code is the value of the three digits and whose message
is the text with its surrounding white space trimmed (empty for an empty text), leaving
the rest of the stream unread; and a line of fewer than four bytes, once its terminator
is stripped, makes `readResponse` fail. -/
theorem readResponse_reply_line (c : Client) (w w2 : World) (d1 d2 d3 sep : Nat)
    (text term rest short term2 rest2 : Bytes)
    (h1 : isDigit d1 = true) (h2 : isDigit d2 = true) (h3 : isDigit d3 = true)
    (hsep : sep ≠ 10) (htext : 10 ∉ text)
    (hterm : Terminates (d1 :: d2 :: d3 :: sep :: text) term)
    (hin : w.ctrlIn = d1 :: d2 :: d3 :: sep :: text ++ term ++ rest)
    (hshort : short.length < 4) (h10 : 10 ∉ short) (hterm2 : Terminates short term2)
    (hin2 : w2.ctrlIn = short ++ term2 ++ rest2) :
    ((c.readResponse w).1 = Except.ok
        { Code := (((d1 - 48) * 100 + (d2 - 48) * 10 + (d3 - 48) : Nat) : Int),
          Message := TrimSpace text }
      ∧ (text = [] → (c.readResponse w).1 = Except.ok
        { Code := (((d1 - 48) * 100 + (d2 - 48) * 10 + (d3 - 48) : Nat) : Int),
          Message := [] })
      ∧ (c.readResponse w).2.ctrlIn = rest)
    ∧ (c.readResponse w2).1
        = Except.error (GoError.errorf "invalid response: %q" [Arg.str short]) := by
  have hd : isDigit 10 = false := by decide
  have hb : 10 ∉ d1 :: d2 :: d3 :: sep :: text := by
    intro hm
    simp only [List.mem_cons] at hm
    rcases hm with e | e | e | e | e
    · rw [← e] at h1; simp [hd] at h1
    · rw [← e] at h2; simp [hd] at h2
    · rw [← e] at h3; simp [hd] at h3
    · exact hsep e.symm
    · exact htext e
  have hr := readResponse_line c w (d1 :: d2 :: d3 :: sep :: text) term rest hb hterm hin
  have hr2 := readResponse_line c w2 short term2 rest2 h10 hterm2 hin2
  have hp : parseReply (d1 :: d2 :: d3 :: sep :: text) = Except.ok
      { Code := (((d1 - 48) * 100 + (d2 - 48) * 10 + (d3 - 48) : Nat) : Int),
        Message := TrimSpace text } := by
    cases text with
    | nil => simp [parseReply, Atoi_three_digits d1 d2 d3 h1 h2 h3, TrimSpace, trimLeftSpace,
        trimLeftSpaceRev]
    | cons t ts => simp [parseReply, Atoi_three_digits d1 d2 d3 h1 h2 h3]
  refine ⟨⟨?_, ?_, ?_⟩, ?_⟩
  · rw [hr, hp]
  · intro ht
    rw [hr, hp, ht]
    simp [TrimSpace, trimLeftSpace, trimLeftSpaceRev]
  · rw [hr]
    unfold echo
    split <;> rfl
  · rw [hr2]
    simp [parseReply, hshort]

/-- C1 at the lines `200 Command okay` (ended by CR LF) and `20` (ended by LF). -/
theorem readResponse_reply_line_witness :
    ((Client.readResponse ⟨false⟩ (World.serving (ascii "200 Command okay \r\n226 done\r\n"))).1
        = Except.ok { Code := 200, Message := ascii "Command okay" }
      ∧ (Client.readResponse ⟨false⟩
          (World.serving (ascii "200 Command okay \r\n226 done\r\n"))).2.ctrlIn
        = ascii "226 done\r\n")
    ∧ (Client.readResponse ⟨false⟩ (World.serving (ascii "20\n"))).1
        = Except.error (GoError.errorf "invalid response: %q" [Arg.str (ascii "20")]) := by
  have h := readResponse_reply_line ⟨false⟩
    (World.serving (ascii "200 Command okay \r\n226 done\r\n")) (World.serving (ascii "20\n"))
    50 48 48 32 (ascii "Command okay ") [13, 10] (ascii "226 done\r\n") (ascii "20") [10] []
    (by decide) (by decide) (by decide) (by decide) (by decide) (by decide) (by decide)
    (by decide) (by decide) (by decide) (by decide)
  exact ⟨⟨h.1.1, h.1.2.2⟩, h.2⟩

/-- C2: on the lines `150-Here is a list`, `item one`, `150 done` the multi-line reader
returns after the first line, with code 150 and the message `Here is a list`, and leaves
the two later lines unread: the hyphen is the fourth byte of the line, which
`readResponse` drops before the message is inspected. -/
theorem readResponseMultiline_hyphen_line :
    (Client.readResponseMultiline ⟨false⟩
        (World.serving (ascii "150-Here is a list\r\nitem one\r\n150 done\r\n"))).1
      = Except.ok { Code := 150, Message := ascii "Here is a list" }
    ∧ (Client.readResponseMultiline ⟨false⟩
        (World.serving (ascii "150-Here is a list\r\nitem one\r\n150 done\r\n"))).2.ctrlIn
      = ascii "item one\r\n150 done\r\n" := by
  decide

/-- C7: with the greeting `220-Welcome`, `220 Ready` and the reply `230 Logged in` to USER,
`NewClient` succeeds after reading the first greeting line only, and `Login` then takes the
second greeting line for the reply to USER and fails with `login failed: 220 Ready`. -/
theorem NewClient_multiline_greeting :
    (NewClient (ascii "ftp.example.org") 21 false
        (World.serving (ascii "220-Welcome\r\n220 Ready\r\n230 Logged in\r\n"))).1
      = Except.ok { verbose := false }
    ∧ (NewClient (ascii "ftp.example.org") 21 false
        (World.serving (ascii "220-Welcome\r\n220 Ready\r\n230 Logged in\r\n"))).2.ctrlIn
      = ascii "220 Ready\r\n230 Logged in\r\n"
    ∧ (Client.Login ⟨false⟩ (ascii "anonymous") []
        (NewClient (ascii "ftp.example.org") 21 false
          (World.serving (ascii "220-Welcome\r\n220 Ready\r\n230 Logged in\r\n"))).2).1
      = some (GoError.errorf "login failed: %d %s" [Arg.int 220, Arg.str (ascii "Ready")]) := by
  decide

/-- C10 as stated fails: the line `-12 x` has more than four bytes and its first three
bytes are not three decimal digits, yet `readResponse` returns a reply, and its code -12
is not between 0 and 999. -/
theorem readResponse_signed_code :
    (Client.readResponse ⟨false⟩ (World.serving (ascii "-12 x\r\n"))).1
      = Except.ok { Code := -12, Message := ascii "x" }
    ∧ 4 ≤ (ascii "-12 x").length
    ∧ isDigit ((ascii "-12 x").getD 0 0) = false
    ∧ ¬ (0 ≤ (-12 : Int) ∧ (-12 : Int) ≤ 999) := by
  decide

/-- C10, amended: a line of at least four bytes whose first three bytes are neither three
decimal digits nor a sign followed by two decimal digits makes `readResponse` fail; and
the code of every reply `readResponse` returns lies between -99 and 999. -/
theorem readResponse_code_shape (c : Client) (w w2 w3 : World) (a b d sep : Nat)
    (text term rest : Bytes) (r : Response)
    (h10 : 10 ∉ a :: b :: d :: sep :: text)
    (hterm : Terminates (a :: b :: d :: sep :: text) term)
    (hin : w.ctrlIn = a :: b :: d :: sep :: text ++ term ++ rest)
    (hbad : ¬ (isDigit a = true ∧ isDigit b = true ∧ isDigit d = true)
      ∧ ¬ ((a = 43 ∨ a = 45) ∧ isDigit b = true ∧ isDigit d = true))
    (hok : c.readResponse w2 = (Except.ok r, w3)) :
    (c.readResponse w).1
      = Except.error (GoError.errorf "invalid response code: %q" [Arg.str [a, b, d]])
    ∧ -99 ≤ r.Code ∧ r.Code ≤ 999 := by
  constructor
  · rw [readResponse_line c w _ term rest h10 hterm hin]
    rcases hA : Atoi [a, b, d] with ⟨v, e⟩
    cases e with
    | none =>
      exfalso
      rcases Atoi_three_ok a b d v hA with ⟨x, y, z, _⟩ | ⟨x, y, z, _⟩ | ⟨x, y, z, _⟩
      · exact hbad.1 ⟨x, y, z⟩
      · exact hbad.2 ⟨Or.inl x, y, z⟩
      · exact hbad.2 ⟨Or.inr x, y, z⟩
    | some e => simp [parseReply, hA]
  · obtain ⟨line, hp⟩ := readResponse_ok_parse c w2 w3 r hok
    obtain ⟨hlen, hA⟩ := parseReply_ok line r hp
    match line, hlen with
    | x :: y :: z :: _ :: _, _ =>
      simp only [List.take_succ_cons, List.take_zero] at hA
      have hx := Atoi_three_ok x y z r.Code hA
      simp only [isDigit, Bool.and_eq_true, decide_eq_true_eq] at hx
      omega

/-- C10, amended, at the line `abc def` and at the reply read from `-12 x`. -/
theorem readResponse_code_shape_witness :
    (Client.readResponse ⟨false⟩ (World.serving (ascii "abc def\r\n"))).1
      = Except.error (GoError.errorf "invalid response code: %q" [Arg.str (ascii "abc")])
    ∧ -99 ≤ (-12 : Int) ∧ (-12 : Int) ≤ 999 :=
  readResponse_code_shape ⟨false⟩ (World.serving (ascii "abc def\r\n"))
    (World.serving (ascii "-12 x\r\n"))
    (Client.readResponse ⟨false⟩ (World.serving (ascii "-12 x\r\n"))).2
    97 98 99 32 (ascii "def") [13, 10] [] { Code := -12, Message := ascii "x" }
    (by decide) (by decide) (by decide) (by decide) (by decide)

/-! ## Lemmas on the trace -/

theorem echo_trace (c : Client) (line : Bytes) (w : World) : (echo c line w).trace = w.trace := by
  unfold echo
  split <;> rfl

theorem send_trace (c : Client) (cmd : Bytes) (w : World) :
    (c.send cmd w).2.trace = w.trace ++ [Event.ctrlWrite (cmd ++ [13, 10])] := by
  simp only [Client.send]
  split <;> simp [echo_trace]

/-- A read of the control connection appends one event, a line read or a failed read. -/
theorem readResponse_trace (c : Client) (w : World) :
    ∃ ev, (c.readResponse w).2.trace = w.trace ++ [ev]
      ∧ (ev = Event.ctrlReadFailed ∨ ∃ line, ev = Event.ctrlRead line) := by
  unfold Client.readResponse ReadString
  cases h : splitLine w.ctrlIn with
  | none => exact ⟨Event.ctrlReadFailed, by simp, Or.inl rfl⟩
  | some p => exact ⟨Event.ctrlRead p.1, by simp [echo_trace], Or.inr ⟨p.1, rfl⟩⟩

theorem sentCommands_append (t u : Trace) :
    sentCommands (t ++ u) = sentCommands t ++ sentCommands u := by
  induction t with
  | nil => simp [sentCommands]
  | cons e t ih => cases e <;> simp [sentCommands, ih]

theorem send_sentCommands (c : Client) (cmd : Bytes) (w : World) :
    sentCommands (c.send cmd w).2.trace = sentCommands w.trace ++ [cmd ++ [13, 10]] := by
  rw [send_trace, sentCommands_append]
  simp [sentCommands]

theorem readResponse_sentCommands (c : Client) (w : World) :
    sentCommands (c.readResponse w).2.trace = sentCommands w.trace := by
  obtain ⟨ev, h, hev⟩ := readResponse_trace c w
  rw [h, sentCommands_append]
  rcases hev with e | ⟨line, e⟩ <;> subst e <;> simp [sentCommands]

/-- C8: when the command is written and a well-formed reply is read, `Delete` succeeds
exactly for the code 250, `RemoveDir` exactly for the code 250 and `MakeDir` exactly for
the codes 257 and 250; a failure is the error of the format `DELE: %d %s`, `RMD: %d %s`
or `MKD: %d %s` with the code and the message of the reply. -/
theorem management_outcome (c : Client) (path : Bytes) (w wd1 wd2 wr1 wr2 wm1 wm2 : World)
    (rd rr rm : Response)
    (hds : c.send (ascii "DELE " ++ path) w = (none, wd1))
    (hdr : c.readResponse wd1 = (Except.ok rd, wd2))
    (hrs : c.send (ascii "RMD " ++ path) w = (none, wr1))
    (hrr : c.readResponse wr1 = (Except.ok rr, wr2))
    (hms : c.send (ascii "MKD " ++ path) w = (none, wm1))
    (hmr : c.readResponse wm1 = (Except.ok rm, wm2)) :
    (((c.Delete path w).1 = none ↔ rd.Code = 250)
      ∧ (rd.Code ≠ 250 → (c.Delete path w).1
          = some (GoError.errorf "DELE: %d %s" [Arg.int rd.Code, Arg.str rd.Message])))
    ∧ (((c.RemoveDir path w).1 = none ↔ rr.Code = 250)
      ∧ (rr.Code ≠ 250 → (c.RemoveDir path w).1
          = some (GoError.errorf "RMD: %d %s" [Arg.int rr.Code, Arg.str rr.Message])))
    ∧ (((c.MakeDir path w).1 = none ↔ (rm.Code = 257 ∨ rm.Code = 250))
      ∧ (¬ (rm.Code = 257 ∨ rm.Code = 250) → (c.MakeDir path w).1
          = some (GoError.errorf "MKD: %d %s" [Arg.int rm.Code, Arg.str rm.Message]))) := by
  refine ⟨?_, ?_, ?_⟩
  · simp only [Client.Delete, hds, hdr]
    by_cases h : rd.Code = 250 <;> simp [h]
  · simp only [Client.RemoveDir, hrs, hrr]
    by_cases h : rr.Code = 250 <;> simp [h]
  · simp only [Client.MakeDir, hms, hmr]
    by_cases h : rm.Code = 257 <;> by_cases h2 : rm.Code = 250 <;> simp [h, h2]

/-- C8 at the path `/x`: `MKD /x` answered by `257 "/x" created` succeeds, while `DELE /x`
and `RMD /x` answered so fail with an error carrying the code 257; and `MKD /x` answered
by `550 Permission denied` fails with an error carrying the code 550. -/
theorem management_outcome_witness :
    ((Client.MakeDir ⟨false⟩ (ascii "/x") (World.serving (ascii "257 \"/x\" created\r\n"))).1 = none
      ∧ (Client.Delete ⟨false⟩ (ascii "/x") (World.serving (ascii "257 \"/x\" created\r\n"))).1
        = some (GoError.errorf "DELE: %d %s" [Arg.int 257, Arg.str (ascii "\"/x\" created")])
      ∧ (Client.RemoveDir ⟨false⟩ (ascii "/x") (World.serving (ascii "257 \"/x\" created\r\n"))).1
        = some (GoError.errorf "RMD: %d %s" [Arg.int 257, Arg.str (ascii "\"/x\" created")]))
    ∧ (Client.MakeDir ⟨false⟩ (ascii "/x") (World.serving (ascii "550 Permission denied\r\n"))).1
      = some (GoError.errorf "MKD: %d %s" [Arg.int 550, Arg.str (ascii "Permission denied")]) := by
  have h := management_outcome ⟨false⟩ (ascii "/x")
    (World.serving (ascii "257 \"/x\" created\r\n"))
    (Client.send ⟨false⟩ (ascii "DELE /x") (World.serving (ascii "257 \"/x\" created\r\n"))).2
    (Client.readResponse ⟨false⟩
      (Client.send ⟨false⟩ (ascii "DELE /x") (World.serving (ascii "257 \"/x\" created\r\n"))).2).2
    (Client.send ⟨false⟩ (ascii "RMD /x") (World.serving (ascii "257 \"/x\" created\r\n"))).2
    (Client.readResponse ⟨false⟩
      (Client.send ⟨false⟩ (ascii "RMD /x") (World.serving (ascii "257 \"/x\" created\r\n"))).2).2
    (Client.send ⟨false⟩ (ascii "MKD /x") (World.serving (ascii "257 \"/x\" created\r\n"))).2
    (Client.readResponse ⟨false⟩
      (Client.send ⟨false⟩ (ascii "MKD /x") (World.serving (ascii "257 \"/x\" created\r\n"))).2).2
    { Code := 257, Message := ascii "\"/x\" created" }
    { Code := 257, Message := ascii "\"/x\" created" }
    { Code := 257, Message := ascii "\"/x\" created" }
    (by decide) (by decide) (by decide) (by decide) (by decide) (by decide)
  have h2 := management_outcome ⟨false⟩ (ascii "/x")
    (World.serving (ascii "550 Permission denied\r\n"))
    (Client.send ⟨false⟩ (ascii "DELE /x") (World.serving (ascii "550 Permission denied\r\n"))).2
    (Client.readResponse ⟨false⟩
      (Client.send ⟨false⟩ (ascii "DELE /x") (World.serving (ascii "550 Permission denied\r\n"))).2).2
    (Client.send ⟨false⟩ (ascii "RMD /x") (World.serving (ascii "550 Permission denied\r\n"))).2
    (Client.readResponse ⟨false⟩
      (Client.send ⟨false⟩ (ascii "RMD /x") (World.serving (ascii "550 Permission denied\r\n"))).2).2
    (Client.send ⟨false⟩ (ascii "MKD /x") (World.serving (ascii "550 Permission denied\r\n"))).2
    (Client.readResponse ⟨false⟩
      (Client.send ⟨false⟩ (ascii "MKD /x") (World.serving (ascii "550 Permission denied\r\n"))).2).2
    { Code := 550, Message := ascii "Permission denied" }
    { Code := 550, Message := ascii "Permission denied" }
    { Code := 550, Message := ascii "Permission denied" }
    (by decide) (by decide) (by decide) (by decide) (by decide) (by decide)
  exact ⟨⟨h.2.2.1.2 (Or.inl rfl), h.1.2 (by decide), h.2.1.2 (by decide)⟩,
    h2.2.2.2 (by decide)⟩

/-- C4: when USER is written and a well-formed reply `r1` is read, and, in case `r1` has
code 331, PASS is written and a well-formed reply `r2` is read: `Login` succeeds exactly
when `r1` has code 230, or `r1` has code 331 and `r2` has code 230; the commands it sends
are USER and PASS when `r1` has code 331 and USER alone otherwise; and a failure is the
error `login failed: %d %s` with the code and message of the last reply read. -/
theorem Login_outcome (c : Client) (user password : Bytes) (w w1 w2 w3 w4 : World)
    (r1 r2 : Response)
    (hs1 : c.send (ascii "USER " ++ user) w = (none, w1))
    (hr1 : c.readResponse w1 = (Except.ok r1, w2))
    (hs2 : r1.Code = 331 → c.send (ascii "PASS " ++ password) w2 = (none, w3))
    (hr2 : r1.Code = 331 → c.readResponse w3 = (Except.ok r2, w4)) :
    ((c.Login user password w).1 = none
        ↔ (r1.Code = 230 ∨ (r1.Code = 331 ∧ r2.Code = 230)))
    ∧ sentCommands (c.Login user password w).2.trace
        = sentCommands w.trace ++
          (if r1.Code = 331 then [ascii "USER " ++ user ++ [13, 10], ascii "PASS " ++ password ++ [13, 10]]
           else [ascii "USER " ++ user ++ [13, 10]])
    ∧ ((c.Login user password w).1 ≠ none →
        (c.Login user password w).1
          = some (GoError.errorf "login failed: %d %s"
              [Arg.int (if r1.Code = 331 then r2 else r1).Code,
               Arg.str (if r1.Code = 331 then r2 else r1).Message])) := by
  have t1 : sentCommands w2.trace = sentCommands w.trace ++ [ascii "USER " ++ user ++ [13, 10]] := by
    have e1 := congrArg Prod.snd hs1
    have e2 := congrArg Prod.snd hr1
    simp only at e1 e2
    rw [← e2, readResponse_sentCommands, ← e1, send_sentCommands]
  by_cases h331 : r1.Code = 331
  · have hs := hs2 h331
    have hr := hr2 h331
    have t2 : sentCommands w4.trace
        = sentCommands w2.trace ++ [ascii "PASS " ++ password ++ [13, 10]] := by
      have e1 := congrArg Prod.snd hs
      have e2 := congrArg Prod.snd hr
      simp only at e1 e2
      rw [← e2, readResponse_sentCommands, ← e1, send_sentCommands]
    have hne : r1.Code ≠ 230 := by omega
    simp only [Client.Login, hs1, hr1, hs, hr, h331]
    by_cases h : r2.Code = 230 <;> simp [h, t1, t2]
  · simp only [Client.Login, hs1, hr1, h331]
    by_cases h : r1.Code = 230 <;> simp [h, t1]

/-- C4 on the replies `331 Password required` and `230 Logged in`. -/
theorem Login_outcome_witness :
    (Client.Login ⟨false⟩ (ascii "anonymous") (ascii "guest")
        (World.serving (ascii "331 Password required\r\n230 Logged in\r\n"))).1 = none
    ∧ sentCommands (Client.Login ⟨false⟩ (ascii "anonymous") (ascii "guest")
        (World.serving (ascii "331 Password required\r\n230 Logged in\r\n"))).2.trace
      = [ascii "USER anonymous\r\n", ascii "PASS guest\r\n"] := by
  have h := Login_outcome ⟨false⟩ (ascii "anonymous") (ascii "guest")
    (World.serving (ascii "331 Password required\r\n230 Logged in\r\n"))
    (Client.send ⟨false⟩ (ascii "USER anonymous")
      (World.serving (ascii "331 Password required\r\n230 Logged in\r\n"))).2
    (Client.readResponse ⟨false⟩ (Client.send ⟨false⟩ (ascii "USER anonymous")
      (World.serving (ascii "331 Password required\r\n230 Logged in\r\n"))).2).2
    (Client.send ⟨false⟩ (ascii "PASS guest")
      (Client.readResponse ⟨false⟩ (Client.send ⟨false⟩ (ascii "USER anonymous")
        (World.serving (ascii "331 Password required\r\n230 Logged in\r\n"))).2).2).2
    (Client.readResponse ⟨false⟩ (Client.send ⟨false⟩ (ascii "PASS guest")
      (Client.readResponse ⟨false⟩ (Client.send ⟨false⟩ (ascii "USER anonymous")
        (World.serving (ascii "331 Password required\r\n230 Logged in\r\n"))).2).2).2).2
    { Code := 331, Message := ascii "Password required" }
    { Code := 230, Message := ascii "Logged in" }
    (by decide) (by decide) (fun _ => by decide) (fun _ => by decide)
  exact ⟨h.1.2 (Or.inr ⟨rfl, rfl⟩), h.2.1⟩

/-- C9: when every write succeeds and every reply read is well formed, `SetTransferMode`
sends `TYPE I`, `MODE S`, `STRU F` in this order with one reply read after each; it
succeeds exactly when the three replies have code 200 or 250; at the first reply with
another code it stops in the world reached by that read, having sent only the directives
up to that one, and returns the error `%s: %d %s` with that directive, the code and the
message. -/
theorem SetTransferMode_outcome (c : Client) (w w1 w2 w3 w4 w5 w6 : World) (r1 r2 r3 : Response)
    (hs1 : c.send (ascii "TYPE I") w = (none, w1))
    (hr1 : c.readResponse w1 = (Except.ok r1, w2))
    (hs2 : modeAccepted r1 → c.send (ascii "MODE S") w2 = (none, w3))
    (hr2 : modeAccepted r1 → c.readResponse w3 = (Except.ok r2, w4))
    (hs3 : modeAccepted r1 → modeAccepted r2 → c.send (ascii "STRU F") w4 = (none, w5))
    (hr3 : modeAccepted r1 → modeAccepted r2 → c.readResponse w5 = (Except.ok r3, w6)) :
    ((c.SetTransferMode w).1 = none ↔ (modeAccepted r1 ∧ modeAccepted r2 ∧ modeAccepted r3))
    ∧ (¬ modeAccepted r1 →
        c.SetTransferMode w = (some (GoError.errorf "%s: %d %s"
            [Arg.str (ascii "TYPE I"), Arg.int r1.Code, Arg.str r1.Message]), w2)
        ∧ sentCommands w2.trace = sentCommands w.trace ++ [ascii "TYPE I\r\n"])
    ∧ (modeAccepted r1 → ¬ modeAccepted r2 →
        c.SetTransferMode w = (some (GoError.errorf "%s: %d %s"
            [Arg.str (ascii "MODE S"), Arg.int r2.Code, Arg.str r2.Message]), w4)
        ∧ sentCommands w4.trace
          = sentCommands w.trace ++ [ascii "TYPE I\r\n", ascii "MODE S\r\n"])
    ∧ (modeAccepted r1 → modeAccepted r2 → ¬ modeAccepted r3 →
        c.SetTransferMode w = (some (GoError.errorf "%s: %d %s"
            [Arg.str (ascii "STRU F"), Arg.int r3.Code, Arg.str r3.Message]), w6)
        ∧ sentCommands w6.trace
          = sentCommands w.trace ++ [ascii "TYPE I\r\n", ascii "MODE S\r\n", ascii "STRU F\r\n"])
    ∧ (modeAccepted r1 → modeAccepted r2 → modeAccepted r3 →
        c.SetTransferMode w = (none, w6)
        ∧ sentCommands w6.trace
          = sentCommands w.trace ++ [ascii "TYPE I\r\n", ascii "MODE S\r\n", ascii "STRU F\r\n"]) := by
  have step : ∀ (cmd : Bytes) (u u1 u2 : World) (r : Response),
      c.send cmd u = (none, u1) → c.readResponse u1 = (Except.ok r, u2) →
      sentCommands u2.trace = sentCommands u.trace ++ [cmd ++ [13, 10]] := by
    intro cmd u u1 u2 r hs hr
    have e1 := congrArg Prod.snd hs
    have e2 := congrArg Prod.snd hr
    simp only at e1 e2
    rw [← e2, readResponse_sentCommands, ← e1, send_sentCommands]
  have acc : ∀ r : Response, modeAccepted r ↔ ¬ (r.Code ≠ 200 ∧ r.Code ≠ 250) := by
    intro r
    unfold modeAccepted
    omega
  have t1 := step _ _ _ _ _ hs1 hr1
  have k1 : ascii "TYPE I" ++ [13, 10] = ascii "TYPE I\r\n" := by decide
  have k2 : ascii "MODE S" ++ [13, 10] = ascii "MODE S\r\n" := by decide
  have k3 : ascii "STRU F" ++ [13, 10] = ascii "STRU F\r\n" := by decide
  rw [k1] at t1
  by_cases a1 : modeAccepted r1
  · have t2 := step _ _ _ _ _ (hs2 a1) (hr2 a1)
    rw [k2, t1] at t2
    by_cases a2 : modeAccepted r2
    · have t3 := step _ _ _ _ _ (hs3 a1 a2) (hr3 a1 a2)
      rw [k3, t2] at t3
      by_cases a3 : modeAccepted r3
      · simp [Client.SetTransferMode, setTransferModeLoop, hs1, hr1, hs2 a1, hr2 a1, hs3 a1 a2,
          hr3 a1 a2, a1, a2, a3, (acc r1).1 a1, (acc r2).1 a2, (acc r3).1 a3, t3]
      · have n3 : r3.Code ≠ 200 ∧ r3.Code ≠ 250 := by
          unfold modeAccepted at a3; omega
        simp [Client.SetTransferMode, setTransferModeLoop, hs1, hr1, hs2 a1, hr2 a1, hs3 a1 a2,
          hr3 a1 a2, a1, a2, a3, (acc r1).1 a1, (acc r2).1 a2, n3, t3]
    · have n2 : r2.Code ≠ 200 ∧ r2.Code ≠ 250 := by
        unfold modeAccepted at a2; omega
      simp [Client.SetTransferMode, setTransferModeLoop, hs1, hr1, hs2 a1, hr2 a1,
        a1, a2, (acc r1).1 a1, n2, t2]
  · have n1 : r1.Code ≠ 200 ∧ r1.Code ≠ 250 := by
      unfold modeAccepted at a1; omega
    simp [Client.SetTransferMode, setTransferModeLoop, hs1, hr1, a1, n1, t1]

/-- C9 on the replies `200 Switching to Binary mode.`, `250 ok`, `504 Bad STRU command.`:
the three directives are sent in order and the error names `STRU F` and the code 504. -/
theorem SetTransferMode_outcome_witness :
    (Client.SetTransferMode ⟨false⟩
        (World.serving (ascii "200 Switching to Binary mode.\r\n250 ok\r\n504 Bad STRU command.\r\n"))).1
      = some (GoError.errorf "%s: %d %s"
          [Arg.str (ascii "STRU F"), Arg.int 504, Arg.str (ascii "Bad STRU command.")])
    ∧ sentCommands (Client.SetTransferMode ⟨false⟩
        (World.serving (ascii "200 Switching to Binary mode.\r\n250 ok\r\n504 Bad STRU command.\r\n"))).2.trace
      = [ascii "TYPE I\r\n", ascii "MODE S\r\n", ascii "STRU F\r\n"] := by
  have h := SetTransferMode_outcome ⟨false⟩
    (World.serving (ascii "200 Switching to Binary mode.\r\n250 ok\r\n504 Bad STRU command.\r\n"))
    (Client.send ⟨false⟩ (ascii "TYPE I") (World.serving (ascii "200 Switching to Binary mode.\r\n250 ok\r\n504 Bad STRU command.\r\n"))).2
    (Client.readResponse ⟨false⟩ (Client.send ⟨false⟩ (ascii "TYPE I") (World.serving (ascii "200 Switching to Binary mode.\r\n250 ok\r\n504 Bad STRU command.\r\n"))).2).2
    (Client.send ⟨false⟩ (ascii "MODE S") (Client.readResponse ⟨false⟩ (Client.send ⟨false⟩ (ascii "TYPE I") (World.serving (ascii "200 Switching to Binary mode.\r\n250 ok\r\n504 Bad STRU command.\r\n"))).2).2).2
    (Client.readResponse ⟨false⟩ (Client.send ⟨false⟩ (ascii "MODE S") (Client.readResponse ⟨false⟩ (Client.send ⟨false⟩ (ascii "TYPE I") (World.serving (ascii "200 Switching to Binary mode.\r\n250 ok\r\n504 Bad STRU command.\r\n"))).2).2).2).2
    (Client.send ⟨false⟩ (ascii "STRU F") (Client.readResponse ⟨false⟩ (Client.send ⟨false⟩ (ascii "MODE S") (Client.readResponse ⟨false⟩ (Client.send ⟨false⟩ (ascii "TYPE I") (World.serving (ascii "200 Switching to Binary mode.\r\n250 ok\r\n504 Bad STRU command.\r\n"))).2).2).2).2).2
    (Client.readResponse ⟨false⟩ (Client.send ⟨false⟩ (ascii "STRU F") (Client.readResponse ⟨false⟩ (Client.send ⟨false⟩ (ascii "MODE S") (Client.readResponse ⟨false⟩ (Client.send ⟨false⟩ (ascii "TYPE I") (World.serving (ascii "200 Switching to Binary mode.\r\n250 ok\r\n504 Bad STRU command.\r\n"))).2).2).2).2).2).2
    { Code := 200, Message := ascii "Switching to Binary mode." }
    { Code := 250, Message := ascii "ok" }
    { Code := 504, Message := ascii "Bad STRU command." }
    (by decide) (by decide) (fun _ => by decide) (fun _ => by decide)
    (fun _ _ => by decide) (fun _ _ => by decide)
  have h3 := h.2.2.2.1 (by decide) (by decide) (by decide)
  constructor
  · rw [h3.1]
  · rw [h3.1]
    exact h3.2

theorem preliminaryOk_iff (r : Response) :
    preliminaryOk r ↔ ¬ (r.Code ≠ 150 ∧ r.Code ≠ 125) := by
  unfold preliminaryOk
  omega

theorem completionOk_iff (r : Response) :
    completionOk r ↔ ¬ (r.Code ≠ 226 ∧ r.Code ≠ 250) := by
  unfold completionOk
  omega

theorem List_phases (c : Client) (path : Bytes) (w w1 w2 w3 w4 w5 : World) (r r2 : Response)
    (listing : Bytes)
    (ho : c.openDataChannel w = (Except.ok (), w1))
    (hs : c.send (ascii "LIST " ++ path) w1 = (none, w2))
    (hr : c.readResponse w2 = (Except.ok r, w3))
    (hc : preliminaryOk r → readAllData w3 = (Except.ok listing, w4))
    (hf : preliminaryOk r → c.readResponse w4 = (Except.ok r2, w5)) :
    (¬ preliminaryOk r →
        c.List path w = (Except.error
          (GoError.errorf "LIST: %d %s" [Arg.int r.Code, Arg.str r.Message]), closeData w3)
        ∧ (c.List path w).2.trace = w3.trace ++ [Event.dataClose])
    ∧ (preliminaryOk r →
        ((c.List path w).1 = Except.ok listing ↔ completionOk r2)
        ∧ (¬ completionOk r2 → (c.List path w).1 = Except.error
            (GoError.errorf "LIST completion: %d %s" [Arg.int r2.Code, Arg.str r2.Message]))) := by
  constructor
  · intro hp
    have n : r.Code ≠ 150 ∧ r.Code ≠ 125 := by
      unfold preliminaryOk at hp; omega
    simp [Client.List, listBody, ho, hs, hr, n, closeData]
  · intro hp
    have n := (preliminaryOk_iff r).1 hp
    by_cases hq : completionOk r2
    · have m := (completionOk_iff r2).1 hq
      simp [Client.List, listBody, ho, hs, hr, n, hc hp, hf hp, m, hq]
    · have m : r2.Code ≠ 226 ∧ r2.Code ≠ 250 := by
        unfold completionOk at hq; omega
      simp [Client.List, listBody, ho, hs, hr, n, hc hp, hf hp, m, hq]

theorem Retr_phases (c : Client) (path : Bytes) (dst dst1 : Sink) (w w1 w2 w3 w4 w5 : World)
    (r r2 : Response)
    (ho : c.openDataChannel w = (Except.ok (), w1))
    (hs : c.send (ascii "RETR " ++ path) w1 = (none, w2))
    (hr : c.readResponse w2 = (Except.ok r, w3))
    (hc : preliminaryOk r → copyFromData dst w3 = (none, dst1, w4))
    (hf : preliminaryOk r → c.readResponse w4 = (Except.ok r2, w5)) :
    (¬ preliminaryOk r →
        c.Retr path dst w = (some
          (GoError.errorf "RETR: %d %s" [Arg.int r.Code, Arg.str r.Message]), dst, closeData w3)
        ∧ (c.Retr path dst w).2.2.trace = w3.trace ++ [Event.dataClose])
    ∧ (preliminaryOk r →
        ((c.Retr path dst w).1 = none ↔ completionOk r2)
        ∧ (¬ completionOk r2 → (c.Retr path dst w).1 = some
            (GoError.errorf "RETR completion: %d %s" [Arg.int r2.Code, Arg.str r2.Message]))) := by
  constructor
  · intro hp
    have n : r.Code ≠ 150 ∧ r.Code ≠ 125 := by
      unfold preliminaryOk at hp; omega
    simp [Client.Retr, retrBody, ho, hs, hr, n, closeData]
  · intro hp
    have n := (preliminaryOk_iff r).1 hp
    by_cases hq : completionOk r2
    · have m := (completionOk_iff r2).1 hq
      simp [Client.Retr, retrBody, ho, hs, hr, n, hc hp, hf hp, m, hq]
    · have m : r2.Code ≠ 226 ∧ r2.Code ≠ 250 := by
        unfold completionOk at hq; omega
      simp [Client.Retr, retrBody, ho, hs, hr, n, hc hp, hf hp, m, hq]

theorem Stor_phases (c : Client) (path : Bytes) (src : Source) (w w1 w2 w3 w4 w5 : World)
    (r r2 : Response)
    (ho : c.openDataChannel w = (Except.ok (), w1))
    (hs : c.send (ascii "STOR " ++ path) w1 = (none, w2))
    (hr : c.readResponse w2 = (Except.ok r, w3))
    (hc : preliminaryOk r → copyToData src w3 = (none, w4))
    (hf : preliminaryOk r → c.readResponse (closeData w4) = (Except.ok r2, w5)) :
    (¬ preliminaryOk r →
        c.Stor path src w = (some
          (GoError.errorf "STOR: %d %s" [Arg.int r.Code, Arg.str r.Message]), closeData w3)
        ∧ (c.Stor path src w).2.trace = w3.trace ++ [Event.dataClose])
    ∧ (preliminaryOk r →
        ((c.Stor path src w).1 = none ↔ completionOk r2)
        ∧ (¬ completionOk r2 → (c.Stor path src w).1 = some
            (GoError.errorf "STOR completion: %d %s" [Arg.int r2.Code, Arg.str r2.Message]))) := by
  constructor
  · intro hp
    have n : r.Code ≠ 150 ∧ r.Code ≠ 125 := by
      unfold preliminaryOk at hp; omega
    simp [Client.Stor, storBody, ho, hs, hr, n, closeData]
  · intro hp
    have n := (preliminaryOk_iff r).1 hp
    by_cases hq : completionOk r2
    · have m := (completionOk_iff r2).1 hq
      simp [Client.Stor, storBody, ho, hs, hr, n, hc hp, hf hp, m, hq]
    · have m : r2.Code ≠ 226 ∧ r2.Code ≠ 250 := by
        unfold completionOk at hq; omega
      simp [Client.Stor, storBody, ho, hs, hr, n, hc hp, hf hp, m, hq]

/-- C5: for each of `List`, `Retr` and `Stor`, once the data channel is open, the command
is written and a well-formed preliminary reply is read: with a code other than 150 and 125
the operation fails with the error naming the command, and the only further I/O call is
the close of the data channel (no byte is read or written on it, no completion reply is
read); with the code 150 or 125, a byte copy without error and a well-formed completion
reply, the operation succeeds exactly when the completion code is 226 or 250, and fails
with the completion error otherwise (`List` then returns the error and no listing). -/
theorem transfer_phases (c : Client) (path listing : Bytes) (dst dst1 : Sink) (src : Source)
    (wl wl1 wl2 wl3 wl4 wl5 wr wr1 wr2 wr3 wr4 wr5 ws ws1 ws2 ws3 ws4 ws5 : World)
    (rl rl2 rr rr2 rs rs2 : Response)
    (hlo : c.openDataChannel wl = (Except.ok (), wl1))
    (hls : c.send (ascii "LIST " ++ path) wl1 = (none, wl2))
    (hlr : c.readResponse wl2 = (Except.ok rl, wl3))
    (hlc : preliminaryOk rl → readAllData wl3 = (Except.ok listing, wl4))
    (hlf : preliminaryOk rl → c.readResponse wl4 = (Except.ok rl2, wl5))
    (hro : c.openDataChannel wr = (Except.ok (), wr1))
    (hrs : c.send (ascii "RETR " ++ path) wr1 = (none, wr2))
    (hrr : c.readResponse wr2 = (Except.ok rr, wr3))
    (hrc : preliminaryOk rr → copyFromData dst wr3 = (none, dst1, wr4))
    (hrf : preliminaryOk rr → c.readResponse wr4 = (Except.ok rr2, wr5))
    (hso : c.openDataChannel ws = (Except.ok (), ws1))
    (hss : c.send (ascii "STOR " ++ path) ws1 = (none, ws2))
    (hsr : c.readResponse ws2 = (Except.ok rs, ws3))
    (hsc : preliminaryOk rs → copyToData src ws3 = (none, ws4))
    (hsf : preliminaryOk rs → c.readResponse (closeData ws4) = (Except.ok rs2, ws5)) :
    ((¬ preliminaryOk rl →
        c.List path wl = (Except.error
          (GoError.errorf "LIST: %d %s" [Arg.int rl.Code, Arg.str rl.Message]), closeData wl3)
        ∧ (c.List path wl).2.trace = wl3.trace ++ [Event.dataClose])
      ∧ (preliminaryOk rl →
        ((c.List path wl).1 = Except.ok listing ↔ completionOk rl2)
        ∧ (¬ completionOk rl2 → (c.List path wl).1 = Except.error
            (GoError.errorf "LIST completion: %d %s" [Arg.int rl2.Code, Arg.str rl2.Message]))))
    ∧ ((¬ preliminaryOk rr →
        c.Retr path dst wr = (some
          (GoError.errorf "RETR: %d %s" [Arg.int rr.Code, Arg.str rr.Message]), dst, closeData wr3)
        ∧ (c.Retr path dst wr).2.2.trace = wr3.trace ++ [Event.dataClose])
      ∧ (preliminaryOk rr →
        ((c.Retr path dst wr).1 = none ↔ completionOk rr2)
        ∧ (¬ completionOk rr2 → (c.Retr path dst wr).1 = some
            (GoError.errorf "RETR completion: %d %s" [Arg.int rr2.Code, Arg.str rr2.Message]))))
    ∧ ((¬ preliminaryOk rs →
        c.Stor path src ws = (some
          (GoError.errorf "STOR: %d %s" [Arg.int rs.Code, Arg.str rs.Message]), closeData ws3)
        ∧ (c.Stor path src ws).2.trace = ws3.trace ++ [Event.dataClose])
      ∧ (preliminaryOk rs →
        ((c.Stor path src ws).1 = none ↔ completionOk rs2)
        ∧ (¬ completionOk rs2 → (c.Stor path src ws).1 = some
            (GoError.errorf "STOR completion: %d %s" [Arg.int rs2.Code, Arg.str rs2.Message])))) :=
  ⟨List_phases c path wl wl1 wl2 wl3 wl4 wl5 rl rl2 listing hlo hls hlr hlc hlf,
    Retr_phases c path dst dst1 wr wr1 wr2 wr3 wr4 wr5 rr rr2 hro hrs hrr hrc hrf,
    Stor_phases c path src ws ws1 ws2 ws3 ws4 ws5 rs rs2 hso hss hsr hsc hsf⟩

/-- C5 in `transferWorld` (preliminary reply `150 Opening`, completion reply `226 Done`):
`List` returns the line the data peer sent, `Retr` and `Stor` succeed. -/
theorem transfer_phases_witness :
    (Client.List ⟨false⟩ (ascii "/pub") transferWorld).1 = Except.ok (ascii "a.txt\r\n")
    ∧ (Client.Retr ⟨false⟩ (ascii "/pub") ⟨[], false⟩ transferWorld).1 = none
    ∧ (Client.Stor ⟨false⟩ (ascii "/pub") ⟨ascii "hello", false⟩ transferWorld).1 = none := by
  have h := transfer_phases ⟨false⟩ (ascii "/pub") (ascii "a.txt\r\n") ⟨[], false⟩
    ⟨ascii "a.txt\r\n", false⟩ ⟨ascii "hello", false⟩
    transferWorld
    (Client.openDataChannel ⟨false⟩ transferWorld).2
    (Client.send ⟨false⟩ (ascii "LIST /pub") (Client.openDataChannel ⟨false⟩ transferWorld).2).2
    (Client.readResponse ⟨false⟩ (Client.send ⟨false⟩ (ascii "LIST /pub") (Client.openDataChannel ⟨false⟩ transferWorld).2).2).2
    (readAllData (Client.readResponse ⟨false⟩ (Client.send ⟨false⟩ (ascii "LIST /pub") (Client.openDataChannel ⟨false⟩ transferWorld).2).2).2).2
    (Client.readResponse ⟨false⟩ (readAllData (Client.readResponse ⟨false⟩ (Client.send ⟨false⟩ (ascii "LIST /pub") (Client.openDataChannel ⟨false⟩ transferWorld).2).2).2).2).2
    transferWorld
    (Client.openDataChannel ⟨false⟩ transferWorld).2
    (Client.send ⟨false⟩ (ascii "RETR /pub") (Client.openDataChannel ⟨false⟩ transferWorld).2).2
    (Client.readResponse ⟨false⟩ (Client.send ⟨false⟩ (ascii "RETR /pub") (Client.openDataChannel ⟨false⟩ transferWorld).2).2).2
    (copyFromData ⟨[], false⟩ (Client.readResponse ⟨false⟩ (Client.send ⟨false⟩ (ascii "RETR /pub") (Client.openDataChannel ⟨false⟩ transferWorld).2).2).2).2.2
    (Client.readResponse ⟨false⟩ (copyFromData ⟨[], false⟩ (Client.readResponse ⟨false⟩ (Client.send ⟨false⟩ (ascii "RETR /pub") (Client.openDataChannel ⟨false⟩ transferWorld).2).2).2).2.2).2
    transferWorld
    (Client.openDataChannel ⟨false⟩ transferWorld).2
    (Client.send ⟨false⟩ (ascii "STOR /pub") (Client.openDataChannel ⟨false⟩ transferWorld).2).2
    (Client.readResponse ⟨false⟩ (Client.send ⟨false⟩ (ascii "STOR /pub") (Client.openDataChannel ⟨false⟩ transferWorld).2).2).2
    (copyToData ⟨ascii "hello", false⟩ (Client.readResponse ⟨false⟩ (Client.send ⟨false⟩ (ascii "STOR /pub") (Client.openDataChannel ⟨false⟩ transferWorld).2).2).2).2
    (Client.readResponse ⟨false⟩ (closeData (copyToData ⟨ascii "hello", false⟩ (Client.readResponse ⟨false⟩ (Client.send ⟨false⟩ (ascii "STOR /pub") (Client.openDataChannel ⟨false⟩ transferWorld).2).2).2).2)).2
    { Code := 150, Message := ascii "Opening" } { Code := 226, Message := ascii "Done" }
    { Code := 150, Message := ascii "Opening" } { Code := 226, Message := ascii "Done" }
    { Code := 150, Message := ascii "Opening" } { Code := 226, Message := ascii "Done" }
    (by decide) (by decide) (by decide) (fun _ => by decide) (fun _ => by decide)
    (by decide) (by decide) (by decide) (fun _ => by decide) (fun _ => by decide)
    (by decide) (by decide) (by decide) (fun _ => by decide) (fun _ => by decide)
  exact ⟨(h.1.2 (by decide)).1.2 (by decide), (h.2.1.2 (by decide)).1.2 (by decide),
    (h.2.2.2 (by decide)).1.2 (by decide)⟩

theorem echo_dataOpen (c : Client) (line : Bytes) (w : World) :
    (echo c line w).dataOpen = w.dataOpen := by
  unfold echo
  split <;> rfl

theorem send_dataOpen (c : Client) (cmd : Bytes) (w : World) :
    (c.send cmd w).2.dataOpen = w.dataOpen := by
  simp only [Client.send]
  split <;> simp [echo_dataOpen]

theorem readResponse_dataOpen (c : Client) (w : World) :
    (c.readResponse w).2.dataOpen = w.dataOpen := by
  unfold Client.readResponse ReadString
  cases h : splitLine w.ctrlIn with
  | none => simp
  | some p => simp [echo_dataOpen]

theorem openDataChannel_dataOpen (c : Client) (w w1 : World)
    (h : c.openDataChannel w = (Except.ok (), w1)) : w1.dataOpen = true := by
  unfold Client.openDataChannel at h
  split at h
  · simp at h
  · split at h
    · simp at h
    · split at h
      · simp at h
      · split at h
        · simp at h
        · simp only at h
          split at h
          · simp at h
          · simp only [Prod.mk.injEq, true_and] at h
            rw [← h]

/-- C6: in a run of `Stor` in which the data channel is opened, STOR is written, the
preliminary reply has code 150 or 125 and the copy of the source ends without error, the
data channel is open while the source bytes are written, it is closed in the world in
which the completion reply is read, and the I/O calls after the preliminary reply are, in
this order: the write of the source bytes on the data channel, the close of the data
channel, one read of the control connection (the completion reply), and the deferred
close. -/
theorem Stor_closes_before_completion (c : Client) (path : Bytes) (src : Source)
    (w w1 w2 w3 w4 : World) (r : Response)
    (ho : c.openDataChannel w = (Except.ok (), w1))
    (hs : c.send (ascii "STOR " ++ path) w1 = (none, w2))
    (hr : c.readResponse w2 = (Except.ok r, w3))
    (hp : r.Code = 150 ∨ r.Code = 125)
    (hc : copyToData src w3 = (none, w4)) :
    (w4.dataOpen = true ∧ w4.trace = w3.trace ++ [Event.dataWrite src.data])
    ∧ (closeData w4).dataOpen = false
    ∧ (c.Stor path src w).2 = closeData (c.readResponse (closeData w4)).2
    ∧ ∃ ev, (ev = Event.ctrlReadFailed ∨ ∃ line, ev = Event.ctrlRead line)
        ∧ (c.Stor path src w).2.trace
          = w3.trace ++ [Event.dataWrite src.data, Event.dataClose, ev, Event.dataClose] := by
  have n : ¬ (r.Code ≠ 150 ∧ r.Code ≠ 125) := by omega
  have o1 := openDataChannel_dataOpen c w w1 ho
  have e2 := congrArg Prod.snd hs
  have e3 := congrArg Prod.snd hr
  simp only at e2 e3
  have o3 : w3.dataOpen = true := by
    rw [← e3, readResponse_dataOpen, ← e2, send_dataOpen, o1]
  have h4 : w4 = { w3 with trace := w3.trace ++ [Event.dataWrite src.data] } := by
    unfold copyToData at hc
    split at hc
    · simp at hc
    · simp only at hc
      split at hc
      · simp at hc
      · simp only [Prod.mk.injEq, true_and] at hc
        exact hc.symm
  have hfin : (c.Stor path src w).2 = closeData (c.readResponse (closeData w4)).2 := by
    simp only [Client.Stor, storBody, ho, hs, hr, n, hc, if_false]
    rcases hq : c.readResponse (closeData w4) with ⟨res, w5⟩
    cases res with
    | error e => rfl
    | ok r2 =>
      simp only
      split <;> rfl
  refine ⟨⟨?_, ?_⟩, rfl, hfin, ?_⟩
  · rw [h4]; exact o3
  · rw [h4]
  · obtain ⟨ev, ht, hev⟩ := readResponse_trace c (closeData w4)
    refine ⟨ev, hev, ?_⟩
    rw [hfin]
    simp only [closeData] at ht ⊢
    rw [ht, h4]
    simp

/-- C6 in `transferWorld`: the I/O calls of `Stor`, with the close of the data channel
between the write of `hello` and the read of the completion reply. -/
theorem Stor_closes_before_completion_witness :
    ∃ ev, (ev = Event.ctrlReadFailed ∨ ∃ line, ev = Event.ctrlRead line)
      ∧ (Client.Stor ⟨false⟩ (ascii "/pub") ⟨ascii "hello", false⟩ transferWorld).2.trace
        = [Event.ctrlWrite (ascii "PASV\r\n"),
            Event.ctrlRead (ascii "227 Entering Passive Mode (127,0,0,1,200,10).\r\n"),
            Event.dialData (ascii "127.0.0.1:51210"),
            Event.ctrlWrite (ascii "STOR /pub\r\n"),
            Event.ctrlRead (ascii "150 Opening\r\n")]
          ++ [Event.dataWrite (ascii "hello"), Event.dataClose, ev, Event.dataClose] :=
  (Stor_closes_before_completion ⟨false⟩ (ascii "/pub") ⟨ascii "hello", false⟩
    transferWorld
    (Client.openDataChannel ⟨false⟩ transferWorld).2
    (Client.send ⟨false⟩ (ascii "STOR /pub") (Client.openDataChannel ⟨false⟩ transferWorld).2).2
    (Client.readResponse ⟨false⟩ (Client.send ⟨false⟩ (ascii "STOR /pub") (Client.openDataChannel ⟨false⟩ transferWorld).2).2).2
    (copyToData ⟨ascii "hello", false⟩ (Client.readResponse ⟨false⟩ (Client.send ⟨false⟩ (ascii "STOR /pub") (Client.openDataChannel ⟨false⟩ transferWorld).2).2).2).2
    { Code := 150, Message := ascii "Opening" }
    (by decide) (by decide) (by decide) (by decide) (by decide)).2.2.2

theorem digitGroup_number (d rest : Bytes) (b : Nat) (hd : isNumber d)
    (hb : isDigit b = false) : digitGroup (d ++ b :: rest) = some (d, b :: rest) := by
  obtain ⟨hne, hall⟩ := hd
  have h1 : (d ++ b :: rest).takeWhile isDigit = d := by
    rw [List.takeWhile_append_of_pos hall]
    simp [List.takeWhile, hb]
  have h2 : (d ++ b :: rest).dropWhile isDigit = b :: rest := by
    rw [List.dropWhile_append_of_pos hall]
    simp [List.dropWhile, hb]
  simp [digitGroup, h1, h2, hne]

theorem groupAfter_number (a b : Nat) (d rest : Bytes) (hd : isNumber d)
    (hb : isDigit b = false) : groupAfter a (a :: (d ++ b :: rest)) = some (d, b :: rest) := by
  simp [groupAfter, expectByte, digitGroup_number d rest b hd hb]

theorem pasvMatchAt_group (d1 d2 d3 d4 d5 d6 post : Bytes)
    (h1 : isNumber d1) (h2 : isNumber d2) (h3 : isNumber d3) (h4 : isNumber d4)
    (h5 : isNumber d5) (h6 : isNumber d6) :
    pasvMatchAt (pasvGroup d1 d2 d3 d4 d5 d6 ++ post)
      = some [pasvGroup d1 d2 d3 d4 d5 d6, d1, d2, d3, d4, d5, d6] := by
  have e : pasvGroup d1 d2 d3 d4 d5 d6 ++ post
      = 40 :: (d1 ++ 44 :: (d2 ++ 44 :: (d3 ++ 44 :: (d4 ++ 44 :: (d5 ++ 44 :: (d6 ++ 41 :: post)))))) := by
    simp [pasvGroup]
  have c44 : isDigit 44 = false := by decide
  have c41 : isDigit 41 = false := by decide
  rw [e]
  simp only [pasvMatchAt, groupAfter_number _ _ _ _ h1 c44, groupAfter_number _ _ _ _ h2 c44,
    groupAfter_number _ _ _ _ h3 c44, groupAfter_number _ _ _ _ h4 c44,
    groupAfter_number _ _ _ _ h5 c44, groupAfter_number _ _ _ _ h6 c41, expectByte]
  simp [pasvGroup]

theorem pasvFind_of_matchAt (s : Bytes) (m : List Bytes) (h : pasvMatchAt s = some m) :
    pasvFind s = some m := by
  cases s with
  | nil => simp [pasvMatchAt, groupAfter, expectByte] at h
  | cons b t => simp [pasvFind, h]

theorem pasvFind_first (pre s : Bytes) (m : List Bytes) (h : pasvMatchAt s = some m)
    (hfirst : ∀ k, k < pre.length → pasvMatchAt ((pre ++ s).drop k) = none) :
    pasvFind (pre ++ s) = some m := by
  induction pre with
  | nil => simpa using pasvFind_of_matchAt s m h
  | cons b t ih =>
    have h0 := hfirst 0 (by simp)
    simp only [List.drop_zero] at h0
    have ht : ∀ k, k < t.length → pasvMatchAt ((t ++ s).drop k) = none := by
      intro k hk
      have := hfirst (k + 1) (by simp; omega)
      simpa using this
    show pasvFind (b :: (t ++ s)) = some m
    rw [pasvFind]
    have h0' : pasvMatchAt (b :: (t ++ s)) = none := h0
    rw [h0']
    exact ih ht

theorem Atoi_number (d : Bytes) (hd : isNumber d) (hfit : decimalValue d < 2 ^ 63) :
    Atoi d = ((decimalValue d : Int), none) := by
  obtain ⟨hne, hall⟩ := hd
  cases d with
  | nil => exact absurd rfl hne
  | cons b t =>
    have hb : isDigit b = true := hall b (by simp)
    have hb2 := hb
    simp only [isDigit, Bool.and_eq_true, decide_eq_true_eq] at hb2
    have e1 : b ≠ 45 := by omega
    have e2 : b ≠ 43 := by omega
    have hall2 : (b :: t).all isDigit = true := by
      rw [List.all_eq_true]
      exact hall
    have hlt : ¬ (2 ^ 63 ≤ decimalValue (b :: t)) := by omega
    simp only [Atoi, List.head?_cons, Option.some.injEq, e1, e2, or_self, if_false, hall2,
      decide_False, hlt, and_false, false_and, reduceCtorEq, Bool.false_eq_true, Bool.true_eq_false]

theorem wrapInt_small (x : Int) (h0 : 0 ≤ x) (h1 : x < 2 ^ 63) : wrapInt x = x := by
  unfold wrapInt
  norm_num at h1 ⊢
  omega

/-- C3 as stated fails: in the reply `227 Entering Passive Mode (1,2,3,4,72057594037927936,5).`
every number fits a 64-bit `int`, yet the port dialled is 5 and not
72057594037927936 * 256 + 5 = 18446744073709551621: the shift `nums[4]<<8` wraps around. -/
theorem openDataChannel_port_overflow :
    (Client.openDataChannel ⟨false⟩ (World.serving
        (ascii "227 Entering Passive Mode (1,2,3,4,72057594037927936,5).\r\n"))).2.trace.getLast?
      = some (Event.dialData (JoinHostPort (ascii "1.2.3.4") (Itoa 5)))
    ∧ decimalValue (ascii "72057594037927936") < 2 ^ 63
    ∧ ((decimalValue (ascii "72057594037927936") * 256 + decimalValue (ascii "5") : Nat) : Int)
      = 18446744073709551621
    ∧ JoinHostPort (ascii "1.2.3.4") (Itoa 5)
      ≠ JoinHostPort (ascii "1.2.3.4") (Itoa 18446744073709551621) := by
  decide

/-- C3, amended: when PASV is written and the reply read has code 227 and a message whose
first match of the passive-mode pattern is `(d1,d2,d3,d4,d5,d6)`, six non-empty strings
of decimal digits with values `n1..n6` that fit a 64-bit `int` and with `n5 * 256 + n6`
fitting it too, `openDataChannel` dials (as its next and last I/O call) the address of
host `n1.n2.n3.n4` and port `n5 * 256 + n6`, and succeeds exactly when the dial does. -/
theorem openDataChannel_dials (c : Client) (w w1 w2 : World)
    (pre post d1 d2 d3 d4 d5 d6 : Bytes)
    (hs : c.send (ascii "PASV") w = (none, w1))
    (hr : c.readResponse w1
      = (Except.ok { Code := 227, Message := pre ++ (pasvGroup d1 d2 d3 d4 d5 d6 ++ post) }, w2))
    (h1 : isNumber d1) (h2 : isNumber d2) (h3 : isNumber d3) (h4 : isNumber d4)
    (h5 : isNumber d5) (h6 : isNumber d6)
    (hfirst : ∀ k, k < pre.length →
      pasvMatchAt ((pre ++ (pasvGroup d1 d2 d3 d4 d5 d6 ++ post)).drop k) = none)
    (f1 : decimalValue d1 < 2 ^ 63) (f2 : decimalValue d2 < 2 ^ 63)
    (f3 : decimalValue d3 < 2 ^ 63) (f4 : decimalValue d4 < 2 ^ 63)
    (hport : decimalValue d5 * 256 + decimalValue d6 < 2 ^ 63) :
    (c.openDataChannel w).2.trace
      = w2.trace ++ [Event.dialData (JoinHostPort
          (dottedHost (decimalValue d1) (decimalValue d2) (decimalValue d3) (decimalValue d4))
          (Itoa ((decimalValue d5 * 256 + decimalValue d6 : Nat) : Int)))]
    ∧ ((c.openDataChannel w).1 = Except.ok () ↔ w2.dialFault = false) := by
  have f5 : decimalValue d5 < 2 ^ 63 := by omega
  have f6 : decimalValue d6 < 2 ^ 63 := by omega
  have hfind := pasvFind_first pre (pasvGroup d1 d2 d3 d4 d5 d6 ++ post) _
    (pasvMatchAt_group d1 d2 d3 d4 d5 d6 post h1 h2 h3 h4 h5 h6) hfirst
  have hp : wrapInt (wrapInt ((decimalValue d5 : Int) * 2 ^ 8) + (decimalValue d6 : Int))
      = ((decimalValue d5 * 256 + decimalValue d6 : Nat) : Int) := by
    have a5 : (0 : Int) ≤ (decimalValue d5 : Int) := Int.natCast_nonneg _
    have a6 : (0 : Int) ≤ (decimalValue d6 : Int) := Int.natCast_nonneg _
    have b : ((decimalValue d5 : Int)) * 256 + (decimalValue d6 : Int) < 2 ^ 63 := by
      have := hport
      norm_num at this ⊢
      omega
    have e : (decimalValue d5 : Int) * 2 ^ 8 = (decimalValue d5 : Int) * 256 := by norm_num
    have i1 : wrapInt ((decimalValue d5 : Int) * 256) = (decimalValue d5 : Int) * 256 :=
      wrapInt_small _ (by omega) (by norm_num at b ⊢; omega)
    have i2 : wrapInt ((decimalValue d5 : Int) * 256 + (decimalValue d6 : Int))
        = (decimalValue d5 : Int) * 256 + (decimalValue d6 : Int) :=
      wrapInt_small _ (by omega) b
    rw [e, i1, i2]
    push_cast
    ring
  simp only [Client.openDataChannel, hs, hr, hfind, ne_eq, not_true_eq_false, if_false,
    List.getD_cons_succ, List.getD_cons_zero, Atoi_number d1 h1 f1, Atoi_number d2 h2 f2,
    Atoi_number d3 h3 f3, Atoi_number d4 h4 f4, Atoi_number d5 h5 f5, Atoi_number d6 h6 f6, hp]
  cases hf : w2.dialFault <;> simp

/-- C3 on the reply `227 Entering Passive Mode (127,0,0,1,200,10).`: the address dialled
is `127.0.0.1:51210`. -/
theorem openDataChannel_dials_witness :
    (Client.openDataChannel ⟨false⟩ (World.serving
        (ascii "227 Entering Passive Mode (127,0,0,1,200,10).\r\n"))).2.trace
      = [Event.ctrlWrite (ascii "PASV\r\n"),
          Event.ctrlRead (ascii "227 Entering Passive Mode (127,0,0,1,200,10).\r\n")]
        ++ [Event.dialData (ascii "127.0.0.1:51210")]
    ∧ (51210 : Nat) = 200 * 256 + 10 :=
  ⟨(openDataChannel_dials ⟨false⟩
    (World.serving (ascii "227 Entering Passive Mode (127,0,0,1,200,10).\r\n"))
    (Client.send ⟨false⟩ (ascii "PASV")
      (World.serving (ascii "227 Entering Passive Mode (127,0,0,1,200,10).\r\n"))).2
    (Client.readResponse ⟨false⟩ (Client.send ⟨false⟩ (ascii "PASV")
      (World.serving (ascii "227 Entering Passive Mode (127,0,0,1,200,10).\r\n"))).2).2
    (ascii "Entering Passive Mode ") (ascii ".")
    (ascii "127") (ascii "0") (ascii "0") (ascii "1") (ascii "200") (ascii "10")
    (by decide) (by decide) (by decide) (by decide) (by decide) (by decide) (by decide)
    (by decide) (by decide) (by decide) (by decide) (by decide) (by decide) (by decide)).1,
    by decide⟩

end ftp
